import Mathlib

/-!
Verification of the pxpilot Execution & Notification Engine specification
against the repository sources (src/pxpilot/pilot.py, src/pxvmflow/pxtool/px.py,
src/tests/test_notification_manager.py).

Shallow embedding: the Python functions present in the sources are translated
directly into Lean definitions; components of the repository that are not among
the provided sources (the Executor, the Target Starter, the Notification
Manager implementation) are modelled from the specification text, each marked
with a doc comment starting with "Modelled from the spec:".
-/

namespace PxPilot

/-! ## Python value model for VM ids

In pilot.validate_vms the vm id is an arbitrary Python value: it may be None,
an integer, or a value of some other type (a string, a float, ...).  The check
performed by the source is
  vm.vm_id is None or vm.vm_id == 0 or not isinstance(vm.vm_id, int)
so the embedding only needs to distinguish None, integers, and non-integers
(every non-integer value makes the isinstance test fail, hence is flagged
whatever its equality with 0 returns). -/
inductive PyVal where
  | pyNone : PyVal
  | pyInt (n : Int) : PyVal
  | pyOther : PyVal
deriving DecidableEq

/-- One entry of proxmox_config.start_options; only the vm_id field is
inspected by validate_vms. -/
structure VMLaunchSettings where
  vm_id : PyVal
deriving DecidableEq

/-- The per-entry test of pilot.validate_vms (pilot.py line 167):
vm.vm_id is None or vm.vm_id == 0 or not isinstance(vm.vm_id, int). -/
def isWrongVmId : PyVal → Bool
  | PyVal.pyNone => true
  | PyVal.pyInt n => n == 0
  | PyVal.pyOther => true

/-- Result of pilot.validate_vms: the entries printed as
"(!) Wrong VM id: ..." and the returned boolean. -/
structure ValidateVmsResult where
  flagged : List VMLaunchSettings
  valid : Bool
deriving DecidableEq

/-- Embedding of pilot.validate_vms (pilot.py lines 160-171): the local
variable valid is initialised to False, the loop only prints a warning for
each entry failing the id test, and valid is returned unchanged. -/
def validate_vms (starts : List VMLaunchSettings) : ValidateVmsResult :=
  { flagged := starts.filter (fun vm => isWrongVmId vm.vm_id)
    valid := false }

/-! ## ProxmoxClient (src/pxvmflow/pxtool/px.py) -/

/-- The Python exceptions relevant to px_post and start_vm:
proxmoxer.ResourceException (an error response of the Proxmox HTTP API, e.g.
an unknown vm id), transport-level errors (connection failures raised by the
underlying HTTP library), proxmoxer authentication errors raised at login, and
pxvmflow.exceptions.ProxmoxException raised by px_post itself. -/
inductive PyExn where
  | proxmoxException (content : String) : PyExn
  | resourceException (content : String) : PyExn
  | transportError (msg : String) : PyExn
  | authenticationError (msg : String) : PyExn
deriving DecidableEq

/-- Embedding of ProxmoxClient.px_post (px.py lines 54-60): the underlying
proxmoxer POST call either returns a value or raises; px_post re-raises a
ResourceException as ProxmoxException with the same content and lets every
other outcome through unchanged. -/
def px_post {α : Type} (post : Except PyExn α) : Except PyExn α :=
  match post with
  | Except.error (PyExn.resourceException c) => Except.error (PyExn.proxmoxException c)
  | r => r

/-- Embedding of ProxmoxClient.start_vm (px.py lines 62-69): it just issues
the POST for nodes/node/type/id/status/start through px_post. -/
def start_vm (post : Except PyExn Unit) : Except PyExn Unit :=
  px_post post

/-- Whether a result of start_vm failed with the ProxmoxException type. -/
def errIsProxmoxException {α : Type} : Except PyExn α → Bool
  | Except.error (PyExn.proxmoxException _) => true
  | _ => false

/-- Embedding of the user-id computation of ProxmoxClient.build_client
(px.py lines 31-44): if "@" occurs in the configured user the user string is
used verbatim, otherwise the identity is user@realm.  The Python membership
test of the single character "@" in the user string is embedded as
membership of the character in the string's character list. -/
def build_user_id (user realm : String) : String :=
  if user.data.contains '@' then user else user ++ "@" ++ realm

/-! ## Notification Manager (modelled from the spec) -/

/-- One NotifierConfig entry: a channel name mapped to channel settings, of
which only the disabled flag matters to channel selection (spec section 4.4,
test fixture notifier_config in test_notification_manager.py). -/
structure NotifierConfigEntry where
  name : String
  disabled : Bool
deriving DecidableEq

/-- Modelled from the spec: the NotificationManager implementation
(pxpilot.notifications) is not among the provided sources.  Per spec section
4.4 and the assertions of test_notification_manager.py, construction keeps one
notifier per config entry whose name is present in the registry and whose
settings do not set disabled, and eagerly records one channel-to-message
pairing per active notifier. -/
structure NotificationManager where
  notifiers : List String
  message_to_notifier_map : List (String × Nat)
deriving DecidableEq

/-- Modelled from the spec: NotificationManager construction from the config
entries and the registry of known channel names (spec section 4.4). -/
def NotificationManager.init (cfg : List NotifierConfigEntry)
    (registry : List String) : NotificationManager :=
  let active := cfg.filter (fun e => registry.contains e.name && !e.disabled)
  { notifiers := active.map (fun e => e.name)
    message_to_notifier_map := (active.map (fun e => e.name)).enum.map
      (fun p => (p.2, p.1)) }

/-- Modelled from the spec: the registry of known channel implementations
(NOTIFIER_TYPES in pxpilot.notifications.notifier_types, not among the
provided sources); a small closed set of channel names resolved by name. -/
def NOTIFIER_TYPES : List String := ["telegram", "email"]

/-! ## Executor and Target Starter (modelled from the spec) -/

/-- Per-target result (spec section 3): started, already-running, or
failed with a reason. -/
inductive ExecutionOutcome where
  | started : ExecutionOutcome
  | alreadyRunning : ExecutionOutcome
  | failed (reason : String) : ExecutionOutcome
deriving DecidableEq

/-- Executor run state machine (spec section 4.3). -/
inductive RunState where
  | notStarted : RunState
  | running : RunState
  | completed : RunState
deriving DecidableEq

/-- A launch target (spec section 3): numeric identifier, kind, owning node. -/
structure LaunchTarget where
  vm_id : Nat
  kind : String
  node : String
deriving DecidableEq

/-- Aggregate over all outcomes of one run plus the final state of the
Executor state machine (spec sections 3 and 4.3). -/
structure RunSummary where
  outcomes : List ExecutionOutcome
  state : RunState
deriving DecidableEq

/-- Modelled from the spec: the Executor implementation
(pxpilot.vm_management.executor) is not among the provided sources.  Per spec
section 4.3, run processes the targets in configured order, invokes the
Target Starter on each, converts an exception raised by a start call into a
failed outcome for that target only, and ends in the COMPLETED state.  The
starter argument gives, for each target, either the outcome the Target
Starter returned or the exception it raised. -/
def Executor.run (starter : LaunchTarget → Except String ExecutionOutcome)
    (targets : List LaunchTarget) : RunSummary :=
  { outcomes := targets.map (fun t =>
      match starter t with
      | Except.ok o => o
      | Except.error e => ExecutionOutcome.failed e)
    state := RunState.completed }

/-- Outcome of one Target Starter invocation together with the number of
remote get-status calls and remote start commands it issued. -/
structure StarterResult where
  outcome : ExecutionOutcome
  statusCalls : Nat
  startCalls : Nat
deriving DecidableEq

/-- Modelled from the spec: the Target Starter implementation
(pxpilot.vm_management.vm_starter, VMStarter) is not among the provided
sources.  Per spec section 4.2: query the status of the target through the
remote client (an error is caught and converted to failed); if the status
shows the target is already running return already-running without starting;
otherwise consult the Readiness Validator on the owning node, returning
failed("node not ready") when it is not ready; otherwise issue one start
command, converting any remote error into failed. -/
def VMStarter.start (getStatus : LaunchTarget → Except String String)
    (isReady : String → Bool) (startCmd : LaunchTarget → Except String Unit)
    (t : LaunchTarget) : StarterResult :=
  match getStatus t with
  | Except.error e => { outcome := ExecutionOutcome.failed e, statusCalls := 1, startCalls := 0 }
  | Except.ok st =>
    if st = "running" then
      { outcome := ExecutionOutcome.alreadyRunning, statusCalls := 1, startCalls := 0 }
    else if isReady t.node = false then
      { outcome := ExecutionOutcome.failed "node not ready", statusCalls := 1, startCalls := 0 }
    else
      match startCmd t with
      | Except.ok _ => { outcome := ExecutionOutcome.started, statusCalls := 1, startCalls := 1 }
      | Except.error e => { outcome := ExecutionOutcome.failed e, statusCalls := 1, startCalls := 1 }

/-! ## pilot.main (src/pxpilot/pilot.py lines 37-62) -/

/-- The slice of the application config read by main and
build_notification_manager: the notification_settings section, which may be
absent. -/
structure AppConfig where
  notification_settings : Option (List NotifierConfigEntry)
deriving DecidableEq

/-- Embedding of pilot.build_notification_manager (pilot.py lines 31-34): a
NotificationManager is built exactly when notification_settings is present
and non-empty. -/
def build_notification_manager (c : AppConfig) : Option NotificationManager :=
  match c.notification_settings with
  | some settings =>
    if settings.length > 0 then some (NotificationManager.init settings NOTIFIER_TYPES)
    else none
  | none => none

/-- Observable effects of one pilot.main invocation: the arguments of the
fatal calls made on the notification manager and the number of send calls. -/
structure MainResult where
  fatalCalls : List String
  sendCount : Nat
deriving DecidableEq

/-- Embedding of pilot.main (pilot.py lines 37-62).  loadResult is the
outcome of ConfigManager().load (a raised exception propagates, since the
call stands outside any try block; None means "Config not loaded.").
execResult abstracts the try block body: building the executor
(ProxmoxClient construction included) and executor.start() either complete
or raise with a message.  The except block converts the exception into a
fatal call on the manager when one is configured; afterwards send() is
invoked once when a manager is configured. -/
def mainRun (loadResult : Except String (Option AppConfig))
    (execResult : Except String Unit) : Except String MainResult :=
  match loadResult with
  | Except.error e => Except.error e
  | Except.ok none => Except.ok { fatalCalls := [], sendCount := 0 }
  | Except.ok (some cfg) =>
    let hasNM := (build_notification_manager cfg).isSome
    let fatals :=
      match execResult with
      | Except.ok _ => []
      | Except.error msg => if hasNM then [msg] else []
    Except.ok { fatalCalls := fatals, sendCount := if hasNM then 1 else 0 }

/-- Exit code of the Python process running main as its entry point: 0 when
main returns normally, non-zero when an exception escapes main. -/
def processExitCode : Except String MainResult → Nat
  | Except.ok _ => 0
  | Except.error _ => 1

/-! ## Helper lemmas -/

/-- Filtering a list by a predicate keeps exactly the elements that the
complementary predicate drops. -/
theorem length_filter_eq_sub {α : Type} (l : List α) (p q : α → Bool)
    (h : ∀ x, q x = !(p x)) :
    (l.filter p).length = l.length - (l.filter q).length := by
  induction l with
  | nil => rfl
  | cons a l ih =>
    have hle : (l.filter q).length ≤ l.length := List.length_filter_le _ _
    have hq := h a
    cases hpa : p a with
    | true =>
      rw [hpa] at hq
      simp [List.filter_cons, hpa, hq, ih]
      omega
    | false =>
      rw [hpa] at hq
      simp [List.filter_cons, hpa, hq, ih]

/-! ## Concrete inputs used by witnesses -/

/-- A 3-target batch for the failure-isolation scenario. -/
def targetsW : List LaunchTarget :=
  [{ vm_id := 100, kind := "qemu", node := "pve" },
   { vm_id := 101, kind := "qemu", node := "pve" },
   { vm_id := 102, kind := "lxc", node := "pve" }]

/-- A starter stub whose start call raises exactly on the second target of
targetsW. -/
def starterW : LaunchTarget → Except String ExecutionOutcome :=
  fun t => if t.vm_id = 101 then Except.error "boom" else Except.ok ExecutionOutcome.started

/-- A config with one enabled telegram notifier, so a Notification Manager is
configured. -/
def cfgW : AppConfig :=
  { notification_settings := some [{ name := "telegram", disabled := false }] }

/-- A remote-client status stub reporting every target as running. -/
def getStatusW : LaunchTarget → Except String String := fun _ => Except.ok "running"

/-- A readiness stub reporting every node ready. -/
def isReadyW : String → Bool := fun _ => true

/-- A remote-client start stub that always succeeds, with call counting done
by VMStarter.start itself. -/
def startCmdW : LaunchTarget → Except String Unit := fun _ => Except.ok ()

/-- A concrete launch target for the idempotence scenario. -/
def targetW : LaunchTarget := { vm_id := 100, kind := "qemu", node := "pve" }

/-! ## Claim theorems -/

/-- Claim C1: failure isolation of the Executor — for every batch of targets,
an exception raised by one target's start call is converted into a single
failed ExecutionOutcome for that target only, every other target keeps the
outcome its own start call produced, the batch yields one outcome per target,
and the run ends in the COMPLETED state. -/
theorem executor_failure_isolation
    (starter : LaunchTarget → Except String ExecutionOutcome)
    (targets : List LaunchTarget) (i : Nat) (t : LaunchTarget) (e : String)
    (ht : targets[i]? = some t) (hraise : starter t = Except.error e) :
    (Executor.run starter targets).state = RunState.completed
    ∧ (Executor.run starter targets).outcomes.length = targets.length
    ∧ (Executor.run starter targets).outcomes[i]? = some (ExecutionOutcome.failed e)
    ∧ ∀ (j : Nat) (u : LaunchTarget) (o : ExecutionOutcome),
        targets[j]? = some u → starter u = Except.ok o →
        (Executor.run starter targets).outcomes[j]? = some o := by
  refine ⟨rfl, by simp [Executor.run], ?_, ?_⟩
  · simp [Executor.run, List.getElem?_map, ht, hraise]
  · intro j u o hj hok
    simp [Executor.run, List.getElem?_map, hj, hok]

/-- Witness for C1: the 3-target batch where target 2's start call raises
yields a failed outcome for target 2 only and the run is COMPLETED. -/
theorem executor_failure_isolation_witness :
    (Executor.run starterW targetsW).state = RunState.completed
    ∧ (Executor.run starterW targetsW).outcomes.length = targetsW.length
    ∧ (Executor.run starterW targetsW).outcomes[1]? = some (ExecutionOutcome.failed "boom")
    ∧ ∀ (j : Nat) (u : LaunchTarget) (o : ExecutionOutcome),
        targetsW[j]? = some u → starterW u = Except.ok o →
        (Executor.run starterW targetsW).outcomes[j]? = some o :=
  executor_failure_isolation starterW targetsW 1
    { vm_id := 101, kind := "qemu", node := "pve" } "boom" (by rfl) (by rfl)

/-- Claim C2: whenever a Notification Manager is configured, pilot.main
invokes the final send exactly once, on both exit paths of the executor
block (normal completion and fatal exception). -/
theorem main_sends_once (cfg : AppConfig) (execResult : Except String Unit)
    (h : (build_notification_manager cfg).isSome = true) :
    ∃ r : MainResult, mainRun (Except.ok (some cfg)) execResult = Except.ok r
      ∧ r.sendCount = 1 := by
  cases execResult with
  | ok u => exact ⟨_, rfl, by simp [h]⟩
  | error msg => exact ⟨_, rfl, by simp [h]⟩

/-- Witness for C2: with one enabled telegram notifier and a fatal executor
exception, send is invoked exactly once. -/
theorem main_sends_once_witness :
    ∃ r : MainResult, mainRun (Except.ok (some cfgW)) (Except.error "fatal boom") = Except.ok r
      ∧ r.sendCount = 1 :=
  main_sends_once cfgW (Except.error "fatal boom") (by rfl)

/-- Claim C3: an exception from Executor construction or startup is caught by
pilot.main, reported as a single fatal notification when a manager is
configured, does not propagate out of main, and the final send still
happens. -/
theorem main_catches_fatal (cfg : AppConfig) (msg : String)
    (h : (build_notification_manager cfg).isSome = true) :
    ∃ r : MainResult, mainRun (Except.ok (some cfg)) (Except.error msg) = Except.ok r
      ∧ r.fatalCalls = [msg] ∧ r.sendCount = 1 :=
  ⟨_, rfl, by simp [h], by simp [h]⟩

/-- Witness for C3: a fatal client-authentication exception is converted into
one fatal call and the notification flush still runs. -/
theorem main_catches_fatal_witness :
    ∃ r : MainResult,
      mainRun (Except.ok (some cfgW)) (Except.error "client auth failed") = Except.ok r
      ∧ r.fatalCalls = ["client auth failed"] ∧ r.sendCount = 1 :=
  main_catches_fatal cfgW "client auth failed" (by rfl)

/-- Claim C4: for every NotifierConfig list of length N with k entries
disabled or unrecognized, the constructed Notification Manager has exactly
N - k active channels and exactly N - k channel-to-message mappings. -/
theorem notification_manager_active_count (cfg : List NotifierConfigEntry)
    (registry : List String) :
    (NotificationManager.init cfg registry).notifiers.length
      = cfg.length - (cfg.filter (fun e => e.disabled || !(registry.contains e.name))).length
    ∧ (NotificationManager.init cfg registry).message_to_notifier_map.length
      = cfg.length - (cfg.filter (fun e => e.disabled || !(registry.contains e.name))).length := by
  have hcompl : ∀ e : NotifierConfigEntry,
      (e.disabled || !(registry.contains e.name)) = !(registry.contains e.name && !e.disabled) := by
    intro e
    cases e.disabled <;> cases registry.contains e.name <;> rfl
  have hlen := length_filter_eq_sub cfg
    (fun e => registry.contains e.name && !e.disabled)
    (fun e => e.disabled || !(registry.contains e.name)) hcompl
  constructor
  · simpa [NotificationManager.init] using hlen
  · simpa [NotificationManager.init] using hlen

/-- Claim C5: evaluation of pilot.validate_vms at an input whose every target
has a valid id — no entry is flagged, yet the function returns False, because
the valid flag is initialised to False and never updated. -/
theorem validate_vms_defect_eval :
    (validate_vms [{ vm_id := PyVal.pyInt 100 }]).valid = false
    ∧ (validate_vms [{ vm_id := PyVal.pyInt 100 }]).flagged = [] :=
  ⟨rfl, rfl⟩

/-- Counterexample for C6: a target with the negative integer id -1 is not
flagged by validate_vms, although the claim says every non-positive id is
reported as a configuration defect. -/
theorem validate_vms_negative_id_cex :
    (validate_vms [{ vm_id := PyVal.pyInt (-1) }]).flagged = []
    ∧ isWrongVmId (PyVal.pyInt (-1)) = false :=
  ⟨rfl, rfl⟩

/-- Claim C6 (amended): every launch target whose id is None, zero, or a
non-integer value is flagged by validate_vms as a configuration defect;
negative integer ids pass the check un-flagged. -/
theorem validate_vms_flags_defects (starts : List VMLaunchSettings)
    (vm : VMLaunchSettings) (hmem : vm ∈ starts)
    (hbad : vm.vm_id = PyVal.pyNone ∨ vm.vm_id = PyVal.pyInt 0 ∨ vm.vm_id = PyVal.pyOther) :
    vm ∈ (validate_vms starts).flagged := by
  have hw : isWrongVmId vm.vm_id = true := by
    rcases hbad with h | h | h <;> rw [h] <;> rfl
  simp only [validate_vms]
  exact List.mem_filter.mpr ⟨hmem, hw⟩

/-- Witness for C6 (amended): a target with id 0 appears among the flagged
entries. -/
theorem validate_vms_flags_defects_witness :
    ({ vm_id := PyVal.pyInt 0 } : VMLaunchSettings)
      ∈ (validate_vms [{ vm_id := PyVal.pyInt 0 }]).flagged :=
  validate_vms_flags_defects [{ vm_id := PyVal.pyInt 0 }] { vm_id := PyVal.pyInt 0 }
    (by decide) (Or.inr (Or.inl rfl))

/-- Counterexample for C7: a transport-level failure of the underlying POST
is not a ResourceException, so start_vm propagates it unchanged instead of
failing with the ProxmoxException type. -/
theorem start_vm_transport_error_cex :
    start_vm (Except.error (PyExn.transportError "connection timed out"))
      = Except.error (PyExn.transportError "connection timed out")
    ∧ errIsProxmoxException
        (start_vm (Except.error (PyExn.transportError "connection timed out"))) = false :=
  ⟨rfl, rfl⟩

/-- Claim C7 (amended): start_vm converts exactly the ResourceException
failures of the underlying API call (error responses such as an unknown
target id) into ProxmoxException; transport-level and authentication
failures propagate with their original exception type. -/
theorem start_vm_error_conversion :
    (∀ c : String, start_vm (Except.error (PyExn.resourceException c))
        = Except.error (PyExn.proxmoxException c))
    ∧ (∀ m : String, start_vm (Except.error (PyExn.transportError m))
        = Except.error (PyExn.transportError m))
    ∧ (∀ m : String, start_vm (Except.error (PyExn.authenticationError m))
        = Except.error (PyExn.authenticationError m))
    ∧ ∀ u : Unit, start_vm (Except.ok u) = Except.ok u :=
  ⟨fun _ => rfl, fun _ => rfl, fun _ => rfl, fun _ => rfl⟩

/-- Counterexample for C8: on a fatal run-level error pilot.main records the
fatal notification but returns normally, so the process exit code is 0, not
the non-zero code the claim requires. -/
theorem main_fatal_exit_cex :
    processExitCode
      (mainRun (Except.ok (some cfgW)) (Except.error "client construction failed")) = 0
    ∧ mainRun (Except.ok (some cfgW)) (Except.error "client construction failed")
        = Except.ok { fatalCalls := ["client construction failed"], sendCount := 1 } :=
  ⟨rfl, rfl⟩

/-- Claim C8 (amended): when a fatal run-level error occurs, the fatal
section is recorded for the notification message, but pilot.main catches the
exception and returns normally, so the process exit code is 0. -/
theorem main_fatal_zero_exit (cfg : AppConfig) (msg : String)
    (h : (build_notification_manager cfg).isSome = true) :
    processExitCode (mainRun (Except.ok (some cfg)) (Except.error msg)) = 0
    ∧ ∃ r : MainResult, mainRun (Except.ok (some cfg)) (Except.error msg) = Except.ok r
        ∧ r.fatalCalls = [msg] :=
  ⟨rfl, _, rfl, by simp [h]⟩

/-- Witness for C8 (amended): a concrete fatal error yields exit code 0 with
the fatal call recorded. -/
theorem main_fatal_zero_exit_witness :
    processExitCode (mainRun (Except.ok (some cfgW)) (Except.error "disk failure")) = 0
    ∧ ∃ r : MainResult, mainRun (Except.ok (some cfgW)) (Except.error "disk failure") = Except.ok r
        ∧ r.fatalCalls = ["disk failure"] :=
  main_fatal_zero_exit cfgW "disk failure" (by rfl)

/-- Claim C9: idempotence of starting — when the remote status of the target
is running, the Target Starter returns already-running, never a failed
outcome, and issues zero start commands. -/
theorem starter_idempotent (getStatus : LaunchTarget → Except String String)
    (isReady : String → Bool) (startCmd : LaunchTarget → Except String Unit)
    (t : LaunchTarget) (h : getStatus t = Except.ok "running") :
    (VMStarter.start getStatus isReady startCmd t).outcome = ExecutionOutcome.alreadyRunning
    ∧ (VMStarter.start getStatus isReady startCmd t).startCalls = 0
    ∧ ∀ reason : String,
        (VMStarter.start getStatus isReady startCmd t).outcome
          ≠ ExecutionOutcome.failed reason := by
  simp [VMStarter.start, h]

/-- Witness for C9: a concrete already-running target yields already-running
with zero start commands. -/
theorem starter_idempotent_witness :
    (VMStarter.start getStatusW isReadyW startCmdW targetW).outcome
        = ExecutionOutcome.alreadyRunning
    ∧ (VMStarter.start getStatusW isReadyW startCmdW targetW).startCalls = 0
    ∧ ∀ reason : String,
        (VMStarter.start getStatusW isReadyW startCmdW targetW).outcome
          ≠ ExecutionOutcome.failed reason :=
  starter_idempotent getStatusW isReadyW startCmdW targetW rfl

/-- Claim C10: in ProxmoxClient.build_client the configured realm is ignored
whenever the user string contains an @ character — the user string is the
login identity verbatim, for every realm; only without @ is the identity
user@realm. -/
theorem build_client_realm_ignored (user realm : String) :
    (user.data.contains '@' = true →
      build_user_id user realm = user
      ∧ ∀ realm2 : String, build_user_id user realm = build_user_id user realm2)
    ∧ (user.data.contains '@' = false →
      build_user_id user realm = user ++ "@" ++ realm) := by
  constructor
  · intro h
    have hm : '@' ∈ user.data := by simpa using h
    refine ⟨by simp [build_user_id, hm], ?_⟩
    intro realm2
    simp [build_user_id, hm]
  · intro h
    have hm : '@' ∉ user.data := by simpa using h
    simp [build_user_id, hm]

/-- Witness for C10: root@pam keeps its realm part verbatim, root with realm
pam becomes root@pam. -/
theorem build_client_realm_ignored_witness :
    build_user_id "root@pam" "pve" = "root@pam"
    ∧ build_user_id "root" "pam" = "root" ++ "@" ++ "pam" :=
  ⟨((build_client_realm_ignored "root@pam" "pve").1 (by decide)).1,
   (build_client_realm_ignored "root" "pam").2 (by decide)⟩

end PxPilot
